import Mathlib

/-!
Verification of `src/tastypie/event_handler.py` (rbox_tastypie).

The module defines `EventHandler`, a base class with 14 no-op extension-point
methods, and `MultiEventHandler`, a composite that lazily resolves a configured
list of handler references (dotted-path strings or already-concrete objects)
and fans each extension-point call out to the resolved handlers in order.

The shallow embedding below models Python strings as `List Char`, and the
Python import system as an explicit environment mapping module paths to module
objects (attribute tables), exceptions as `Except`/`Option` error values, and
the mutable `MultiEventHandler` instance as an explicit state record threaded
through the operations.  Each definition carries a comment pointing at the
source lines it translates.
-/

namespace Tastypie

/-- Python strings, modelled by their character lists. -/
abbrev PyStr := List Char

/-- Python values that can appear as handler references and resolution
results: `None`, a string, a class object, or an instance of a class.
`cls n` is the class object with identity `n`; `inst c n` is an instance
(identity `n`) of the class with identity `c`.  Identities stand for Python
object identity. -/
inductive Value where
  | pyNone : Value
  | str : PyStr → Value
  | cls : Nat → Value
  | inst : Nat → Nat → Value
  deriving DecidableEq, Repr

/-- Whether a value is an instance object (as opposed to a class object,
a string or `None`). -/
def Value.isInst : Value → Bool
  | .inst _ _ => true
  | _ => false

/-- Python exceptions raised by the code paths modelled here:
`ImportError msg` and `AttributeError attrName`. -/
inductive PyError where
  | importError : PyStr → PyError
  | attributeError : PyStr → PyError
  deriving DecidableEq, Repr

/-- A Python module object, as `getattr` sees it: a partial map from
attribute names to values (`none` = the module has no such attribute). -/
abbrev PyModule := PyStr → Option Value

/-- The import system: `modules p = some m` when `importlib.import_module(p)`
succeeds and yields module `m`; `none` when the import fails. -/
structure Env where
  modules : PyStr → Option PyModule

/-- Python's `str.split(sep)` for a single-character separator, on character
lists: `pysplit '.' "a.b"` is `[['a'],['b']]`, `pysplit '.' ""` is `[[]]`,
`pysplit '.' "a."` is `[['a'],[]]` — exactly `cls_path.split('.')`. -/
def pysplit (sep : Char) : List Char → List (List Char)
  | [] => [[]]
  | c :: cs =>
    if c = sep then [] :: pysplit sep cs
    else
      match pysplit sep cs with
      | [] => [[c]]
      | grp :: rest => (c :: grp) :: rest

/-- Python's `sep.join(parts)` on character lists — exactly
`'.'.join(module_bits[:-1])` when applied with `['.']`. -/
def pyjoin (sep : List Char) : List (List Char) → List Char
  | [] => []
  | [x] => x
  | x :: y :: xs => x ++ sep ++ pyjoin sep (y :: xs)

/-- The container path the source computes for a dotted reference string:
`'.'.join(cls_path.split('.')[:-1])` (event_handler.py line 113). -/
def module_path_of (s : PyStr) : PyStr :=
  pyjoin ['.'] (pysplit '.' s).dropLast

/-- The member name the source computes for a dotted reference string:
`cls_path.split('.')[-1]` (event_handler.py line 113). -/
def class_name_of (s : PyStr) : PyStr :=
  (pysplit '.' s).getLastD []

/-- The message of the `ImportError` raised at event_handler.py line 123:
`"Module '%s' does not appear to have a class called '%s'." % (module_path,
class_name)`. -/
def missing_member_message (module_path class_name : PyStr) : PyStr :=
  "Module '".toList ++ module_path ++
    "' does not appear to have a class called '".toList ++ class_name ++ "'.".toList

/-- The message of the `ImportError` that `importlib.import_module` raises
when the named module cannot be found (modelled import system; the source
propagates it unchanged from line 114). -/
def no_module_message (module_path : PyStr) : PyStr :=
  "No module named ".toList ++ module_path

/-- `MultiEventHandler.resolve_class_by_name` (event_handler.py lines
106–124), instrumented with the list of module paths handed to
`importlib.import_module` (second component).

Line-by-line: a non-string reference is returned unchanged (lines 107–108).
A string containing `'.'` is split; all but the last segment joined with
`'.'` form the module path, the last segment is the class name (lines
110–113); the module is imported (line 114); `getattr(module, class_name,
None)` is taken and if it `is None` an `ImportError` naming module path and
class name is raised (lines 120–123); otherwise the found member is returned
as-is (line 124).  A string with no `'.'` reaches the `raise ImportError(...)`
at line 118 whose message is built with `"... Only given '%s'." % self.to` —
but `MultiEventHandler` has no attribute `to` (its `__init__` sets only
`event_handlers` and `_event_handlers`, and `EventHandler.__get__` sets only
`resource_meta`), so evaluating `self.to` raises `AttributeError('to')`
before the `ImportError` can be constructed. -/
def resolve_class_by_name (env : Env) (cls_path : Value) :
    Except PyError Value × List PyStr :=
  match cls_path with
  | .str s =>
    if '.' ∈ s then
      let module_bits := pysplit '.' s
      let module_path := pyjoin ['.'] module_bits.dropLast
      let class_name := module_bits.getLastD []
      match env.modules module_path with
      | none => (.error (.importError (no_module_message module_path)), [module_path])
      | some module =>
        match (module class_name).getD .pyNone with
        | .pyNone =>
          (.error (.importError (missing_member_message module_path class_name)), [module_path])
        | cls => (.ok cls, [module_path])
    else
      (.error (.attributeError "to".toList), [])
  | v => (.ok v, [])

/-- The mutable state of a `MultiEventHandler` instance: the stored reference
list `event_handlers` and the cache attribute `_event_handlers` (`none` is
Python's `None`; `some l` is the list `l`). -/
structure MEHState where
  event_handlers : List Value
  _event_handlers : Option (List Value)
  deriving Repr

/-- `MultiEventHandler.__init__` (event_handler.py lines 101–104): stores the
given reference sequence and sets the cache attribute to `None`.  It receives
no import environment: no module can be loaded here. -/
def MultiEventHandler.init (event_handlers : List Value) : MEHState :=
  { event_handlers := event_handlers, _event_handlers := none }

/-- Python falsiness of the `_event_handlers` attribute as tested by
`if not self._event_handlers:` (line 127): `None` and the empty list are
falsy, a non-empty list is truthy. -/
def cacheFalsy : Option (List Value) → Bool
  | none => true
  | some l => l.isEmpty

/-- The list comprehension
`[self.resolve_class_by_name(cls) for cls in self.event_handlers]`
(event_handler.py line 128): references are resolved left to right; the first
exception aborts the comprehension and propagates; module loads performed up
to and including the failing reference are accumulated. -/
def resolve_all (env : Env) : List Value → Except PyError (List Value) × List PyStr
  | [] => (.ok [], [])
  | r :: rs =>
    match resolve_class_by_name env r with
    | (.ok v, ld) =>
      match resolve_all env rs with
      | (.ok vs, lds) => (.ok (v :: vs), ld ++ lds)
      | (.error e, lds) => (.error e, ld ++ lds)
    | (.error e, ld) => (.error e, ld)

/-- The outcome of `get_event_handlers`: the returned list or the propagated
exception, the instance state afterwards, and the module loads performed. -/
structure GetResult where
  result : Except PyError (List Value)
  state : MEHState
  loads : List PyStr
  deriving Repr

/-- `MultiEventHandler.get_event_handlers` (event_handler.py lines 126–129):
if `_event_handlers` is falsy, resolve every stored reference and assign the
resulting list to `_event_handlers` (on an exception the assignment never
happens and the state is unchanged); otherwise return the cached list. -/
def get_event_handlers (env : Env) (self : MEHState) : GetResult :=
  if cacheFalsy self._event_handlers then
    match resolve_all env self.event_handlers with
    | (.ok l, loads) => ⟨.ok l, { self with _event_handlers := some l }, loads⟩
    | (.error e, loads) => ⟨.error e, self, loads⟩
  else
    ⟨.ok (self._event_handlers.getD []), self, []⟩

/-- The 14 extension points defined by `EventHandler` (event_handler.py lines
20–96) and fanned out by `MultiEventHandler` (lines 153–211). -/
inductive ExtPoint where
  | pre_read_list | post_read_list
  | pre_read_detail | post_read_detail
  | pre_create_detail | post_create_detail
  | pre_update_detail | post_update_detail
  | pre_update_list | post_update_list
  | pre_delete_list | post_delete_list
  | pre_delete_detail | post_delete_detail
  deriving DecidableEq, Repr

/-- `MultiEventHandler.read_list_handlers` (lines 131–132). -/
def read_list_handlers (env : Env) (self : MEHState) : GetResult :=
  get_event_handlers env self

/-- `MultiEventHandler.read_detail_handlers` (lines 134–135). -/
def read_detail_handlers (env : Env) (self : MEHState) : GetResult :=
  get_event_handlers env self

/-- `MultiEventHandler.create_detail_handlers` (lines 137–138). -/
def create_detail_handlers (env : Env) (self : MEHState) : GetResult :=
  get_event_handlers env self

/-- `MultiEventHandler.update_detail_handlers` (lines 140–141). -/
def update_detail_handlers (env : Env) (self : MEHState) : GetResult :=
  get_event_handlers env self

/-- `MultiEventHandler.update_list_handlers` (lines 143–144). -/
def update_list_handlers (env : Env) (self : MEHState) : GetResult :=
  get_event_handlers env self

/-- `MultiEventHandler.delete_list_handlers` (lines 146–147). -/
def delete_list_handlers (env : Env) (self : MEHState) : GetResult :=
  get_event_handlers env self

/-- `MultiEventHandler.delete_detail_handlers` (lines 149–150). -/
def delete_detail_handlers (env : Env) (self : MEHState) : GetResult :=
  get_event_handlers env self

/-- Which handler-group accessor each of the 14 composite methods calls
(event_handler.py lines 153–211): the `read_list` points use
`read_list_handlers`, the `read_detail` points `read_detail_handlers`, and
so on. -/
def handlers_accessor : ExtPoint → Env → MEHState → GetResult
  | .pre_read_list => read_list_handlers
  | .post_read_list => read_list_handlers
  | .pre_read_detail => read_detail_handlers
  | .post_read_detail => read_detail_handlers
  | .pre_create_detail => create_detail_handlers
  | .post_create_detail => create_detail_handlers
  | .pre_update_detail => update_detail_handlers
  | .post_update_detail => update_detail_handlers
  | .pre_update_list => update_list_handlers
  | .post_update_list => update_list_handlers
  | .pre_delete_list => delete_list_handlers
  | .post_delete_list => delete_list_handlers
  | .pre_delete_detail => delete_detail_handlers
  | .post_delete_detail => delete_detail_handlers

/-- The observable behaviour of downstream handler methods:
`behave h p object_list bundle` is `none` when calling extension-point method
`p` of handler `h` with those arguments returns normally, and `some e` when
it raises `e`.  The composite treats handlers as black boxes, so their
behaviour is a parameter of the embedding. -/
abbrev Behavior := Value → ExtPoint → Value → Value → Option PyError

/-- One recorded downstream call: which handler was invoked, on which
extension-point method, with which arguments. -/
structure CallEvent where
  handler : Value
  point : ExtPoint
  object_list : Value
  bundle : Value
  deriving DecidableEq, Repr

/-- The `for` loop shared by the 14 composite methods (e.g. lines 154–155:
`for event_handler in self.read_list_handlers():
event_handler.pre_read_list(object_list, bundle)`): call each handler's
method in list order with the given arguments; a raised exception stops the
loop and propagates.  Returns the calls made and the propagated exception,
if any. -/
def fan_out_loop (behave : Behavior) (point : ExtPoint) (object_list bundle : Value) :
    List Value → List CallEvent × Option PyError
  | [] => ([], none)
  | h :: hs =>
    match behave h point object_list bundle with
    | some e => ([⟨h, point, object_list, bundle⟩], some e)
    | none =>
      let rest := fan_out_loop behave point object_list bundle hs
      (⟨h, point, object_list, bundle⟩ :: rest.1, rest.2)

/-- The outcome of one composite extension-point call: instance state
afterwards, module loads performed, downstream calls made, and the
propagated exception, if any. -/
structure DispatchResult where
  state : MEHState
  loads : List PyStr
  calls : List CallEvent
  error : Option PyError
  deriving Repr

/-- The body shared by the 14 `MultiEventHandler` extension-point methods
(event_handler.py lines 153–211): obtain the handler list through the
extension point's accessor (which resolves and caches on first use; an
exception there propagates before any handler is called), then fan the call
out in list order. -/
def dispatch (env : Env) (behave : Behavior) (point : ExtPoint) (self : MEHState)
    (object_list bundle : Value) : DispatchResult :=
  let got := handlers_accessor point env self
  match got.result with
  | .error e => ⟨got.state, got.loads, [], some e⟩
  | .ok hs =>
    let fo := fan_out_loop behave point object_list bundle hs
    ⟨got.state, got.loads, fo.1, fo.2⟩

/-- `MultiEventHandler.pre_read_list` (lines 153–155). -/
def MultiEventHandler.pre_read_list (env : Env) (behave : Behavior) (self : MEHState)
    (object_list bundle : Value) : DispatchResult :=
  dispatch env behave .pre_read_list self object_list bundle

/-- `MultiEventHandler.post_read_list` (lines 157–159). -/
def MultiEventHandler.post_read_list (env : Env) (behave : Behavior) (self : MEHState)
    (object_list bundle : Value) : DispatchResult :=
  dispatch env behave .post_read_list self object_list bundle

/-- `MultiEventHandler.pre_read_detail` (lines 161–163). -/
def MultiEventHandler.pre_read_detail (env : Env) (behave : Behavior) (self : MEHState)
    (object_list bundle : Value) : DispatchResult :=
  dispatch env behave .pre_read_detail self object_list bundle

/-- `MultiEventHandler.post_read_detail` (lines 165–167). -/
def MultiEventHandler.post_read_detail (env : Env) (behave : Behavior) (self : MEHState)
    (object_list bundle : Value) : DispatchResult :=
  dispatch env behave .post_read_detail self object_list bundle

/-- `MultiEventHandler.pre_create_detail` (lines 170–172). -/
def MultiEventHandler.pre_create_detail (env : Env) (behave : Behavior) (self : MEHState)
    (object_list bundle : Value) : DispatchResult :=
  dispatch env behave .pre_create_detail self object_list bundle

/-- `MultiEventHandler.post_create_detail` (lines 174–176). -/
def MultiEventHandler.post_create_detail (env : Env) (behave : Behavior) (self : MEHState)
    (object_list bundle : Value) : DispatchResult :=
  dispatch env behave .post_create_detail self object_list bundle

/-- `MultiEventHandler.pre_update_detail` (lines 179–181). -/
def MultiEventHandler.pre_update_detail (env : Env) (behave : Behavior) (self : MEHState)
    (object_list bundle : Value) : DispatchResult :=
  dispatch env behave .pre_update_detail self object_list bundle

/-- `MultiEventHandler.post_update_detail` (lines 183–185). -/
def MultiEventHandler.post_update_detail (env : Env) (behave : Behavior) (self : MEHState)
    (object_list bundle : Value) : DispatchResult :=
  dispatch env behave .post_update_detail self object_list bundle

/-- `MultiEventHandler.pre_update_list` (lines 187–189). -/
def MultiEventHandler.pre_update_list (env : Env) (behave : Behavior) (self : MEHState)
    (object_list bundle : Value) : DispatchResult :=
  dispatch env behave .pre_update_list self object_list bundle

/-- `MultiEventHandler.post_update_list` (lines 191–193). -/
def MultiEventHandler.post_update_list (env : Env) (behave : Behavior) (self : MEHState)
    (object_list bundle : Value) : DispatchResult :=
  dispatch env behave .post_update_list self object_list bundle

/-- `MultiEventHandler.pre_delete_list` (lines 197–199). -/
def MultiEventHandler.pre_delete_list (env : Env) (behave : Behavior) (self : MEHState)
    (object_list bundle : Value) : DispatchResult :=
  dispatch env behave .pre_delete_list self object_list bundle

/-- `MultiEventHandler.post_delete_list` (lines 201–203). -/
def MultiEventHandler.post_delete_list (env : Env) (behave : Behavior) (self : MEHState)
    (object_list bundle : Value) : DispatchResult :=
  dispatch env behave .post_delete_list self object_list bundle

/-- `MultiEventHandler.pre_delete_detail` (lines 205–207). -/
def MultiEventHandler.pre_delete_detail (env : Env) (behave : Behavior) (self : MEHState)
    (object_list bundle : Value) : DispatchResult :=
  dispatch env behave .pre_delete_detail self object_list bundle

/-- `MultiEventHandler.post_delete_detail` (lines 209–211). -/
def MultiEventHandler.post_delete_detail (env : Env) (behave : Behavior) (self : MEHState)
    (object_list bundle : Value) : DispatchResult :=
  dispatch env behave .post_delete_detail self object_list bundle

/-- The mutable state of a bare `EventHandler` object: only the
`resource_meta` attribute, set by `__get__` (`none` while unset). -/
structure EventHandlerObj where
  resource_meta : Option Value
  deriving DecidableEq, Repr

/-- Addresses identify Python objects (object identity). -/
abbrev Addr := Nat

/-- A heap of `EventHandler` objects, for stating object-identity facts
about `__get__`. -/
abbrev Heap := Addr → Option EventHandlerObj

/-- `EventHandler.__get__` (event_handler.py lines 10–17): sets
`self.resource_meta = instance` and returns `self` — the very same object,
at the same address.  `owner` is ignored by the body. -/
def EventHandler.dunder_get (heap : Heap) (self : Addr) (inst_arg _owner : Value) :
    Heap × Addr :=
  (fun a =>
    if a = self then (heap self).map fun o => { o with resource_meta := some inst_arg }
    else heap a,
   self)

/-- The 14 no-op extension-point methods of the base `EventHandler`
(event_handler.py lines 20–96): every body is `pass`, so each call returns
`None`, raises nothing, and leaves the handler object and both arguments
untouched.  The result quadruple is (return value, handler state afterwards,
`object_list` afterwards, `bundle` afterwards). -/
def EventHandler.run (_point : ExtPoint) (self : EventHandlerObj)
    (object_list bundle : Value) :
    Except PyError (Value × EventHandlerObj × Value × Value) :=
  .ok (.pyNone, self, object_list, bundle)


/-- Example module `a`, exposing a class `B` (class object identity 0). -/
def moduleA : PyModule := fun n => if n = "B".toList then some (.cls 0) else none

/-- Example module `m`, exposing no members at all. -/
def moduleEmpty : PyModule := fun _ => none

/-- Example import environment: module `a` (with class `B`) and module `m`
(empty) are importable, nothing else is. -/
def envAB : Env :=
  ⟨fun p => if p = "a".toList then some moduleA
    else if p = "m".toList then some moduleEmpty else none⟩

/-- Example reference list whose second entry cannot be resolved (module `m`
has no member `Missing`). -/
def refsC2 : List Value := [.str "a.B".toList, .str "m.Missing".toList]

/-- Example behaviour: every handler method returns normally. -/
def behaveOk : Behavior := fun _ _ _ _ => none

/-- Example behaviour: the handler that is the class object with identity 1
raises an `ImportError` `boom`; every other handler returns normally. -/
def behaveFail1 : Behavior := fun h _ _ _ =>
  if h = .cls 1 then some (.importError "boom".toList) else none

/-- Example state whose cache is already populated with three handlers. -/
def stCached : MEHState := ⟨[], some [.cls 0, .cls 1, .cls 2]⟩

/-- Example one-object heap: an `EventHandler` object at address 0 whose
`resource_meta` is not yet set. -/
def exampleHeap : Heap := fun a => if a = 0 then some ⟨none⟩ else none

theorem pysplit_cons_pos (sep : Char) (cs : List Char) :
    pysplit sep (sep :: cs) = [] :: pysplit sep cs := by
  simp [pysplit]

theorem pysplit_cons_neg (sep c : Char) (cs : List Char) (h : ¬c = sep)
    (g : List Char) (r : List (List Char)) (he : pysplit sep cs = g :: r) :
    pysplit sep (c :: cs) = (c :: g) :: r := by
  simp [pysplit, h, he]

theorem pysplit_ne_nil (sep : Char) (l : List Char) : pysplit sep l ≠ [] := by
  induction l with
  | nil => simp [pysplit]
  | cons c cs ih =>
    by_cases h : c = sep
    · subst h; rw [pysplit_cons_pos]; simp
    · rcases he : pysplit sep cs with _ | ⟨g, r⟩
      · exact absurd he ih
      · rw [pysplit_cons_neg sep c cs h g r he]; simp

theorem pyjoin_pysplit (sep : Char) (l : List Char) :
    pyjoin [sep] (pysplit sep l) = l := by
  induction l with
  | nil => rfl
  | cons c cs ih =>
    by_cases h : c = sep
    · subst h
      rw [pysplit_cons_pos]
      rcases he : pysplit c cs with _ | ⟨g, r⟩
      · exact absurd he (pysplit_ne_nil c cs)
      · rw [he] at ih
        simp only [pyjoin, List.nil_append, List.cons_append] at ih ⊢
        rw [ih]
    · rcases he : pysplit sep cs with _ | ⟨g, r⟩
      · exact absurd he (pysplit_ne_nil sep cs)
      · rw [pysplit_cons_neg sep c cs h g r he]
        rw [he] at ih
        rcases r with _ | ⟨g2, r2⟩
        · simp only [pyjoin] at ih ⊢
          rw [ih]
        · simp only [pyjoin, List.cons_append, List.nil_append] at ih ⊢
          rw [ih]

theorem not_mem_of_mem_pysplit (sep : Char) (l : List Char) (grp : List Char)
    (hg : grp ∈ pysplit sep l) : sep ∉ grp := by
  induction l generalizing grp with
  | nil =>
    simp only [pysplit, List.mem_singleton] at hg
    subst hg; simp
  | cons c cs ih =>
    by_cases h : c = sep
    · subst h
      rw [pysplit_cons_pos] at hg
      rcases List.mem_cons.mp hg with hg1 | hg2
      · subst hg1; simp
      · exact ih grp hg2
    · rcases he : pysplit sep cs with _ | ⟨g, r⟩
      · exact absurd he (pysplit_ne_nil sep cs)
      · rw [pysplit_cons_neg sep c cs h g r he] at hg
        rcases List.mem_cons.mp hg with hg1 | hg2
        · subst hg1
          intro hmem
          rcases List.mem_cons.mp hmem with hc | hmem2
          · exact h hc.symm
          · exact ih g (he ▸ List.mem_cons_self g r) hmem2
        · exact ih grp (he ▸ List.mem_cons_of_mem g hg2)

theorem two_le_length_pysplit (sep : Char) (l : List Char) (hs : sep ∈ l) :
    2 ≤ (pysplit sep l).length := by
  induction l with
  | nil => simp at hs
  | cons c cs ih =>
    by_cases h : c = sep
    · subst h
      rw [pysplit_cons_pos, List.length_cons]
      have h1 : 0 < (pysplit c cs).length := List.length_pos.mpr (pysplit_ne_nil c cs)
      omega
    · have hs' : sep ∈ cs := by
        rcases List.mem_cons.mp hs with hc | hcs
        · exact absurd hc.symm h
        · exact hcs
      rcases he : pysplit sep cs with _ | ⟨g, r⟩
      · exact absurd he (pysplit_ne_nil sep cs)
      · rw [pysplit_cons_neg sep c cs h g r he, List.length_cons]
        have := ih hs'
        rw [he, List.length_cons] at this
        omega

theorem pyjoin_append_singleton (sep : List Char) (xs : List (List Char)) (y : List Char)
    (hxs : xs ≠ []) :
    pyjoin sep (xs ++ [y]) = pyjoin sep xs ++ sep ++ y := by
  induction xs with
  | nil => simp at hxs
  | cons x xs ih =>
    rcases xs with _ | ⟨x2, xs2⟩
    · simp [pyjoin]
    · have h2 := ih (by simp)
      simp only [List.cons_append, List.append_eq, pyjoin] at h2 ⊢
      rw [h2]
      simp [List.append_assoc]

theorem getLastD_eq_getLast_of_ne_nil (l : List (List Char)) (h : l ≠ []) (d : List Char) :
    l.getLastD d = l.getLast h := by
  rw [List.getLastD_eq_getLast?, List.getLast?_eq_getLast _ h]
  rfl


theorem split_at_last_sep (s : PyStr) (hdot : '.' ∈ s) :
    module_path_of s ++ '.' :: class_name_of s = s ∧ '.' ∉ class_name_of s := by
  have hne : pysplit '.' s ≠ [] := pysplit_ne_nil '.' s
  have h2 : 2 ≤ (pysplit '.' s).length := two_le_length_pysplit '.' s hdot
  have hdl : (pysplit '.' s).dropLast ≠ [] := by
    have hlen : (pysplit '.' s).dropLast.length = (pysplit '.' s).length - 1 :=
      List.length_dropLast _
    intro hnil
    rw [hnil] at hlen
    simp only [List.length_nil] at hlen
    omega
  constructor
  · have hrec : (pysplit '.' s).dropLast ++ [(pysplit '.' s).getLast hne] = pysplit '.' s :=
      List.dropLast_append_getLast hne
    have hjoin : pyjoin ['.'] ((pysplit '.' s).dropLast ++ [(pysplit '.' s).getLast hne])
        = pyjoin ['.'] (pysplit '.' s).dropLast ++ ['.'] ++ (pysplit '.' s).getLast hne :=
      pyjoin_append_singleton ['.'] _ _ hdl
    unfold module_path_of class_name_of
    rw [getLastD_eq_getLast_of_ne_nil _ hne]
    calc pyjoin ['.'] (pysplit '.' s).dropLast ++ '.' :: (pysplit '.' s).getLast hne
        = pyjoin ['.'] (pysplit '.' s).dropLast ++ ['.'] ++ (pysplit '.' s).getLast hne := by
          simp
      _ = pyjoin ['.'] ((pysplit '.' s).dropLast ++ [(pysplit '.' s).getLast hne]) := hjoin.symm
      _ = pyjoin ['.'] (pysplit '.' s) := by rw [hrec]
      _ = s := pyjoin_pysplit '.' s
  · unfold class_name_of
    rw [getLastD_eq_getLast_of_ne_nil _ hne]
    exact not_mem_of_mem_pysplit '.' s _ (List.getLast_mem hne)

theorem resolve_str_dotted (env : Env) (s : PyStr) (hdot : '.' ∈ s) :
    resolve_class_by_name env (.str s) =
      match env.modules (module_path_of s) with
      | none => (.error (.importError (no_module_message (module_path_of s))),
                 [module_path_of s])
      | some module =>
        match (module (class_name_of s)).getD .pyNone with
        | .pyNone =>
          (.error (.importError
              (missing_member_message (module_path_of s) (class_name_of s))),
           [module_path_of s])
        | cls => (.ok cls, [module_path_of s]) := by
  simp only [resolve_class_by_name, module_path_of, class_name_of]
  rw [if_pos hdot]

theorem resolve_loads_dotted (env : Env) (s : PyStr) (hdot : '.' ∈ s) :
    (resolve_class_by_name env (.str s)).2 = [module_path_of s] := by
  rw [resolve_str_dotted env s hdot]
  cases hmod : env.modules (module_path_of s) with
  | none => rfl
  | some module => cases hm : (module (class_name_of s)).getD .pyNone <;> simp [hm]

theorem resolve_dotted_ok (env : Env) (s : PyStr) (M : PyModule) (v : Value)
    (hdot : '.' ∈ s) (hmod : env.modules (module_path_of s) = some M)
    (hmem : M (class_name_of s) = some v) (hv : v ≠ .pyNone) :
    resolve_class_by_name env (.str s) = (.ok v, [module_path_of s]) := by
  rw [resolve_str_dotted env s hdot, hmod]
  simp only [hmem, Option.getD_some]

theorem resolve_dotted_missing_member (env : Env) (s : PyStr) (M : PyModule)
    (hdot : '.' ∈ s) (hmod : env.modules (module_path_of s) = some M)
    (hmem : M (class_name_of s) = none) :
    resolve_class_by_name env (.str s) =
      (.error (.importError
          (missing_member_message (module_path_of s) (class_name_of s))),
       [module_path_of s]) := by
  rw [resolve_str_dotted env s hdot, hmod]
  simp only [hmem, Option.getD_none]

theorem fan_out_loop_ok (behave : Behavior) (p : ExtPoint) (ol b : Value) (l : List Value)
    (h : ∀ x ∈ l, behave x p ol b = none) :
    fan_out_loop behave p ol b l = (l.map fun x => ⟨x, p, ol, b⟩, none) := by
  induction l with
  | nil => rfl
  | cons x xs ih =>
    have hx := h x (List.mem_cons_self x xs)
    simp only [fan_out_loop, hx]
    rw [ih (fun y hy => h y (List.mem_cons_of_mem x hy))]
    simp

theorem fan_out_loop_fail (behave : Behavior) (p : ExtPoint) (ol b : Value)
    (pre : List Value) (hk : Value) (post : List Value) (e : PyError)
    (hpre : ∀ x ∈ pre, behave x p ol b = none) (hke : behave hk p ol b = some e) :
    fan_out_loop behave p ol b (pre ++ hk :: post) =
      ((pre ++ [hk]).map fun x => ⟨x, p, ol, b⟩, some e) := by
  induction pre with
  | nil => simp only [List.nil_append, fan_out_loop, hke, List.map_cons, List.map_nil]
  | cons x xs ih =>
    have hx := hpre x (List.mem_cons_self x xs)
    simp only [List.cons_append, List.append_eq, fan_out_loop, hx]
    rw [ih (fun y hy => hpre y (List.mem_cons_of_mem x hy))]
    simp

theorem resolve_all_ok_forall₂ (env : Env) (refs : List Value) (hs : List Value)
    (lds : List PyStr) (h : resolve_all env refs = (.ok hs, lds)) :
    List.Forall₂ (fun r v => (resolve_class_by_name env r).1 = .ok v) refs hs := by
  induction refs generalizing hs lds with
  | nil =>
    simp only [resolve_all, Prod.mk.injEq] at h
    obtain ⟨h1, _⟩ := h
    obtain rfl : ([] : List Value) = hs := by
      injection h1
    exact List.Forall₂.nil
  | cons r rs ih =>
    simp only [resolve_all] at h
    rcases hr : resolve_class_by_name env r with ⟨res, ld⟩
    rw [hr] at h
    rcases res with e | v
    · simp at h
    · rcases hrs : resolve_all env rs with ⟨res2, lds2⟩
      rw [hrs] at h
      rcases res2 with e2 | vs
      · simp at h
      · simp only [Prod.mk.injEq] at h
        obtain ⟨h1, _⟩ := h
        obtain rfl : v :: vs = hs := by injection h1
        exact List.Forall₂.cons (by rw [hr]) (ih vs lds2 hrs)

theorem resolve_all_ok_nil (env : Env) (refs : List Value) (lds : List PyStr)
    (h : resolve_all env refs = (.ok [], lds)) : refs = [] ∧ lds = [] := by
  rcases refs with _ | ⟨r, rs⟩
  · simp only [resolve_all, Prod.mk.injEq] at h
    exact ⟨rfl, h.2.symm⟩
  · exfalso
    simp only [resolve_all] at h
    rcases hr : resolve_class_by_name env r with ⟨res, ld⟩
    rw [hr] at h
    rcases res with e | v
    · simp at h
    · rcases hrs : resolve_all env rs with ⟨res2, lds2⟩
      rw [hrs] at h
      rcases res2 with e2 | vs
      · simp at h
      · simp only [Prod.mk.injEq] at h
        obtain ⟨h1, _⟩ := h
        injection h1 with h2
        exact List.cons_ne_nil v vs h2

theorem handlers_accessor_eq (p : ExtPoint) (env : Env) (self : MEHState) :
    handlers_accessor p env self = get_event_handlers env self := by
  cases p <;> rfl


theorem get_event_handlers_cached (env : Env) (st : MEHState) (hs : List Value)
    (st' : MEHState) (loads : List PyStr)
    (h : get_event_handlers env st = ⟨.ok hs, st', loads⟩) :
    get_event_handlers env st' = ⟨.ok hs, st', []⟩ := by
  cases hc : cacheFalsy st._event_handlers with
  | true =>
    rw [get_event_handlers, if_pos hc] at h
    rcases hr : resolve_all env st.event_handlers with ⟨res, lds⟩
    rw [hr] at h
    rcases res with e | l
    · simp at h
    · simp only [GetResult.mk.injEq] at h
      obtain ⟨h1, h2, h3⟩ := h
      injection h1 with h1
      subst h1
      subst h2
      rcases l with _ | ⟨v, vs⟩
      · obtain ⟨hrefs, -⟩ := resolve_all_ok_nil env st.event_handlers lds hr
        rw [get_event_handlers]
        simp [cacheFalsy, hrefs, resolve_all]
      · rw [get_event_handlers]
        simp [cacheFalsy]
  | false =>
    rw [get_event_handlers, if_neg (by simp [hc])] at h
    simp only [GetResult.mk.injEq] at h
    obtain ⟨h1, h2, h3⟩ := h
    subst h2
    rw [get_event_handlers, if_neg (by simp [hc])]
    rw [h1]


/-- C1: the claim says a reference string with no separator fails with a
configuration error (an `ImportError` explaining the required path format)
at first resolution, before any container is loaded.  What the code actually
does at such an input: the `raise ImportError(...)` at line 118 formats its
message with `self.to`, an attribute `MultiEventHandler` never has, so the
resolution fails with `AttributeError('to')` instead — for every import
environment (hence indeed before any container is loaded: no module path is
ever handed to the import system, the load list is empty). -/
theorem C1_bare_name_raises_attribute_error (env : Env) :
    resolve_class_by_name env (.str "HandlerX".toList) =
      (.error (.attributeError "to".toList), []) :=
  rfl

/-- C2, counterexample to the claim as stated: with stored references
`["a.B", "m.Missing"]` (the second of which fails to resolve because module
`m` has no member `Missing`), two successive calls to `get_event_handlers`
with no configuration change load module `a` twice — the container-load for
the stored reference `"a.B"` is not performed at most once.  The combined
load list of the two calls is `["a", "m", "a", "m"]`. -/
theorem C2_container_reloaded_counterexample :
    (get_event_handlers envAB (MultiEventHandler.init refsC2)).loads ++
        (get_event_handlers envAB
          (get_event_handlers envAB (MultiEventHandler.init refsC2)).state).loads =
      ["a".toList, "m".toList, "a".toList, "m".toList] :=
  rfl

/-- C2 (amended): provided a call to `get_event_handlers` returns
successfully, the resolved list is cached: any later call returns the very
same ordered handler list, leaves the state unchanged, and performs no
container load at all.  (When a resolution fails, however, the cache is not
populated and later calls re-attempt resolution, as the counterexample
shows.) -/
theorem C2_cached_after_successful_resolution (env : Env) (st : MEHState)
    (hs : List Value) (st' : MEHState) (loads : List PyStr)
    (h : get_event_handlers env st = ⟨.ok hs, st', loads⟩) :
    get_event_handlers env st' = ⟨.ok hs, st', []⟩ :=
  get_event_handlers_cached env st hs st' loads h

/-- C2 witness: concrete run of the amended theorem — after `["a.B"]`
resolves to the class object `B`, the second call returns the cached list
and loads nothing. -/
theorem C2_cached_after_successful_resolution_witness :
    get_event_handlers envAB
        { event_handlers := [.str "a.B".toList], _event_handlers := some [.cls 0] } =
      ⟨.ok [.cls 0],
        { event_handlers := [.str "a.B".toList], _event_handlers := some [.cls 0] }, []⟩ :=
  C2_cached_after_successful_resolution envAB
    (MultiEventHandler.init [.str "a.B".toList]) [.cls 0]
    { event_handlers := [.str "a.B".toList], _event_handlers := some [.cls 0] }
    ["a".toList] rfl

/-- C3, counterexample to the claim as stated: resolving the dotted path
`"a.B"` (module `a` binds the name `B` to a class object) yields the class
object itself, not an instance of it — `resolve_class_by_name` contains no
instantiation step, it returns the member found by `getattr` unchanged. -/
theorem C3_class_not_instantiated_counterexample :
    (resolve_class_by_name envAB (.str "a.B".toList)).1 = .ok (.cls 0) ∧
      Value.isInst (.cls 0) = false :=
  ⟨rfl, rfl⟩

/-- C3 (amended): for a dotted-path reference whose container exposes the
named member (and the member is not `None`), resolution returns exactly that
member object — the class object itself, imported but not instantiated —
after loading exactly the named container. -/
theorem C3_resolution_returns_member_object (env : Env) (s : PyStr) (M : PyModule)
    (v : Value) (hdot : '.' ∈ s) (hmod : env.modules (module_path_of s) = some M)
    (hmem : M (class_name_of s) = some v) (hv : v ≠ .pyNone) :
    resolve_class_by_name env (.str s) = (.ok v, [module_path_of s]) :=
  resolve_dotted_ok env s M v hdot hmod hmem hv

/-- C3 witness: concrete run of the amended theorem on `"a.B"`. -/
theorem C3_resolution_returns_member_object_witness :
    resolve_class_by_name envAB (.str "a.B".toList) =
      (.ok (.cls 0), [module_path_of "a.B".toList]) :=
  C3_resolution_returns_member_object envAB "a.B".toList moduleA (.cls 0)
    (by decide) rfl rfl (by decide)

/-- C4: for every one of the 14 extension points, when the handler list of a
freshly constructed composite resolves successfully and no handler raises,
dispatch calls every resolved handler exactly in list order with the very
`(object_list, bundle)` arguments given, raises nothing, and the resolved
list is in bijective order-preserving correspondence with the stored
reference list (each stored reference resolving to the matching handler). -/
theorem C4_fan_out_order_and_arguments (point : ExtPoint) (env : Env)
    (behave : Behavior) (refs hs : List Value) (st' : MEHState) (loads : List PyStr)
    (object_list bundle : Value)
    (hres : get_event_handlers env (MultiEventHandler.init refs) = ⟨.ok hs, st', loads⟩)
    (hok : ∀ h ∈ hs, behave h point object_list bundle = none) :
    (dispatch env behave point (MultiEventHandler.init refs) object_list bundle).calls =
        hs.map (fun h => ⟨h, point, object_list, bundle⟩) ∧
      (dispatch env behave point (MultiEventHandler.init refs) object_list bundle).error =
        none ∧
      List.Forall₂ (fun r h => (resolve_class_by_name env r).1 = .ok h) refs hs := by
  have hacc : handlers_accessor point env (MultiEventHandler.init refs) =
      get_event_handlers env (MultiEventHandler.init refs) :=
    handlers_accessor_eq point env (MultiEventHandler.init refs)
  have hd : dispatch env behave point (MultiEventHandler.init refs) object_list bundle =
      ⟨st', loads, hs.map (fun h => ⟨h, point, object_list, bundle⟩), none⟩ := by
    simp only [dispatch, hacc, hres,
      fan_out_loop_ok behave point object_list bundle hs hok]
  refine ⟨by rw [hd], by rw [hd], ?_⟩
  have h0 := hres
  rw [get_event_handlers] at h0
  have hcf : cacheFalsy (MultiEventHandler.init refs)._event_handlers = true := rfl
  rw [if_pos hcf] at h0
  rcases hr : resolve_all env (MultiEventHandler.init refs).event_handlers with ⟨res, lds⟩
  rw [hr] at h0
  rcases res with e | l
  · simp at h0
  · simp only [GetResult.mk.injEq] at h0
    obtain ⟨h1, -, -⟩ := h0
    injection h1 with h1
    subst h1
    exact resolve_all_ok_forall₂ env refs l lds hr

/-- C4 witness: concrete run — one reference `"a.B"`, resolving to the class
object `B`, is called once at `pre_read_list` with both arguments passed
through. -/
theorem C4_fan_out_order_and_arguments_witness :
    (dispatch envAB behaveOk .pre_read_list
          (MultiEventHandler.init [.str "a.B".toList]) .pyNone .pyNone).calls =
        [.cls 0].map (fun h => ⟨h, .pre_read_list, .pyNone, .pyNone⟩) ∧
      (dispatch envAB behaveOk .pre_read_list
          (MultiEventHandler.init [.str "a.B".toList]) .pyNone .pyNone).error = none ∧
      List.Forall₂ (fun r h => (resolve_class_by_name envAB r).1 = .ok h)
        [.str "a.B".toList] [.cls 0] :=
  C4_fan_out_order_and_arguments .pre_read_list envAB behaveOk
    [.str "a.B".toList] [.cls 0]
    { event_handlers := [.str "a.B".toList], _event_handlers := some [.cls 0] }
    ["a".toList] .pyNone .pyNone rfl (fun _ _ => rfl)

/-- C5: for every extension point, if every handler before position k returns
normally and the handler at position k raises `e`, dispatch propagates
exactly `e` and the recorded calls are precisely the handlers up to and
including position k — no later handler is invoked. -/
theorem C5_fail_fast (point : ExtPoint) (env : Env) (behave : Behavior)
    (st : MEHState) (hs_pre : List Value) (hk : Value) (hs_post : List Value)
    (st' : MEHState) (loads : List PyStr) (object_list bundle : Value) (e : PyError)
    (hres : get_event_handlers env st = ⟨.ok (hs_pre ++ hk :: hs_post), st', loads⟩)
    (hpre : ∀ h ∈ hs_pre, behave h point object_list bundle = none)
    (hke : behave hk point object_list bundle = some e) :
    (dispatch env behave point st object_list bundle).error = some e ∧
      (dispatch env behave point st object_list bundle).calls =
        (hs_pre ++ [hk]).map (fun h => ⟨h, point, object_list, bundle⟩) := by
  have hacc : handlers_accessor point env st = get_event_handlers env st :=
    handlers_accessor_eq point env st
  have hd : dispatch env behave point st object_list bundle =
      ⟨st', loads, (hs_pre ++ [hk]).map (fun h => ⟨h, point, object_list, bundle⟩),
        some e⟩ := by
    simp only [dispatch, hacc, hres,
      fan_out_loop_fail behave point object_list bundle hs_pre hk hs_post e hpre hke]
  exact ⟨by rw [hd], by rw [hd]⟩

/-- C5 witness: concrete run — three cached handlers, the second raises
`boom` at `pre_delete_detail`: the error propagates and only the first two
handlers are called. -/
theorem C5_fail_fast_witness :
    (dispatch envAB behaveFail1 .pre_delete_detail stCached .pyNone .pyNone).error =
        some (.importError "boom".toList) ∧
      (dispatch envAB behaveFail1 .pre_delete_detail stCached .pyNone .pyNone).calls =
        ([Value.cls 0] ++ [Value.cls 1]).map
          (fun h => ⟨h, .pre_delete_detail, .pyNone, .pyNone⟩) :=
  C5_fail_fast .pre_delete_detail envAB behaveFail1 stCached [.cls 0] (.cls 1)
    [.cls 2] stCached [] .pyNone .pyNone (.importError "boom".toList)
    rfl (by decide) rfl

/-- C6: for a dotted-path reference whose container loads but lacks the named
member, resolution fails with the `ImportError` of line 123, whose message
contains both the container path and the missing member name as substrings
(and exactly that container was loaded). -/
theorem C6_missing_member_error (env : Env) (s : PyStr) (M : PyModule)
    (hdot : '.' ∈ s) (hmod : env.modules (module_path_of s) = some M)
    (hmem : M (class_name_of s) = none) :
    resolve_class_by_name env (.str s) =
        (.error (.importError
            (missing_member_message (module_path_of s) (class_name_of s))),
         [module_path_of s]) ∧
      module_path_of s <:+:
        missing_member_message (module_path_of s) (class_name_of s) ∧
      class_name_of s <:+:
        missing_member_message (module_path_of s) (class_name_of s) := by
  refine ⟨resolve_dotted_missing_member env s M hdot hmod hmem, ?_, ?_⟩
  · exact ⟨"Module '".toList,
      "' does not appear to have a class called '".toList ++ class_name_of s ++
        "'.".toList,
      by simp [missing_member_message, List.append_assoc]⟩
  · exact ⟨"Module '".toList ++ module_path_of s ++
        "' does not appear to have a class called '".toList,
      "'.".toList,
      by simp [missing_member_message, List.append_assoc]⟩

/-- C6 witness: concrete run on `"m.Missing"` — module `m` loads but has no
member `Missing`; the error message names both. -/
theorem C6_missing_member_error_witness :
    resolve_class_by_name envAB (.str "m.Missing".toList) =
        (.error (.importError
            (missing_member_message (module_path_of "m.Missing".toList)
              (class_name_of "m.Missing".toList))),
         [module_path_of "m.Missing".toList]) ∧
      module_path_of "m.Missing".toList <:+:
        missing_member_message (module_path_of "m.Missing".toList)
          (class_name_of "m.Missing".toList) ∧
      class_name_of "m.Missing".toList <:+:
        missing_member_message (module_path_of "m.Missing".toList)
          (class_name_of "m.Missing".toList) :=
  C6_missing_member_error envAB "m.Missing".toList moduleEmpty (by decide) rfl rfl

/-- C7: a dotted reference string is split at its last separator — the
computed container path followed by `'.'` followed by the computed member
name reassembles the string, and the member name contains no further
separator; moreover resolution always loads exactly the container so named
and, when that container exposes the member (not `None`), returns exactly the
member so named. -/
theorem C7_split_at_last_separator (s : PyStr) (hdot : '.' ∈ s) :
    module_path_of s ++ '.' :: class_name_of s = s ∧
      '.' ∉ class_name_of s ∧
      (∀ env : Env, (resolve_class_by_name env (.str s)).2 = [module_path_of s]) ∧
      (∀ (env : Env) (M : PyModule) (v : Value),
        env.modules (module_path_of s) = some M → M (class_name_of s) = some v →
          v ≠ .pyNone → (resolve_class_by_name env (.str s)).1 = .ok v) := by
  obtain ⟨h1, h2⟩ := split_at_last_sep s hdot
  exact ⟨h1, h2, fun env => resolve_loads_dotted env s hdot,
    fun env M v hmod hmem hv => by rw [resolve_dotted_ok env s M v hdot hmod hmem hv]⟩

/-- C7 witness: the spec's own example — `"pkgA.pkgB.HandlerX"` splits into
container `"pkgA.pkgB"` and member `"HandlerX"`. -/
theorem C7_split_at_last_separator_witness :
    "pkgA.pkgB".toList ++ '.' :: "HandlerX".toList = "pkgA.pkgB.HandlerX".toList ∧
      '.' ∉ "HandlerX".toList ∧
      (∀ env : Env,
        (resolve_class_by_name env (.str "pkgA.pkgB.HandlerX".toList)).2 =
          ["pkgA.pkgB".toList]) ∧
      (∀ (env : Env) (M : PyModule) (v : Value),
        env.modules "pkgA.pkgB".toList = some M → M "HandlerX".toList = some v →
          v ≠ .pyNone →
          (resolve_class_by_name env (.str "pkgA.pkgB.HandlerX".toList)).1 = .ok v) :=
  C7_split_at_last_separator "pkgA.pkgB.HandlerX".toList (by decide)

/-- C8: each of the 14 extension-point methods of the bare `EventHandler` has
body `pass`: invoked with any `(object_list, bundle)` it returns `None`,
raises nothing, and leaves the handler object and both arguments exactly as
they were. -/
theorem C8_event_handler_noop (point : ExtPoint) (self : EventHandlerObj)
    (object_list bundle : Value) :
    EventHandler.run point self object_list bundle =
      .ok (.pyNone, self, object_list, bundle) :=
  rfl

/-- C9: `MultiEventHandler.__init__` stores the given reference sequence
verbatim and leaves the resolution cache at `None` — nothing is resolved at
construction (the constructor does not even receive the import environment);
resolution can only happen later, through `get_event_handlers`. -/
theorem C9_init_stores_verbatim (refs : List Value) :
    (MultiEventHandler.init refs).event_handlers = refs ∧
      (MultiEventHandler.init refs)._event_handlers = none :=
  ⟨rfl, rfl⟩

/-- C10: `EventHandler.__get__` returns the very handler object it was
invoked on (the same address, no copy — every other address is untouched)
and overwrites that shared object's `resource_meta` with the accessing
instance; a second access through another owner instance overwrites the same
shared field again. -/
theorem C10_dunder_get_shared_self (heap : Heap) (h : Addr) (o : EventHandlerObj)
    (i1 i2 ow1 ow2 : Value) (hh : heap h = some o) :
    (EventHandler.dunder_get heap h i1 ow1).2 = h ∧
      (EventHandler.dunder_get heap h i1 ow1).1 h = some ⟨some i1⟩ ∧
      (∀ a : Addr, a ≠ h → (EventHandler.dunder_get heap h i1 ow1).1 a = heap a) ∧
      (EventHandler.dunder_get (EventHandler.dunder_get heap h i1 ow1).1 h i2 ow2).1 h =
        some ⟨some i2⟩ := by
  refine ⟨rfl, ?_, ?_, ?_⟩
  · simp [EventHandler.dunder_get, hh]
  · intro a ha
    simp [EventHandler.dunder_get, ha]
  · simp [EventHandler.dunder_get, hh]

/-- C10 witness: concrete run on a one-object heap, accessed through two
different owner instances in turn. -/
theorem C10_dunder_get_shared_self_witness :
    (EventHandler.dunder_get exampleHeap 0 (.inst 0 0) .pyNone).2 = 0 ∧
      (EventHandler.dunder_get exampleHeap 0 (.inst 0 0) .pyNone).1 0 =
        some ⟨some (.inst 0 0)⟩ ∧
      (∀ a : Addr, a ≠ 0 →
        (EventHandler.dunder_get exampleHeap 0 (.inst 0 0) .pyNone).1 a =
          exampleHeap a) ∧
      (EventHandler.dunder_get
          (EventHandler.dunder_get exampleHeap 0 (.inst 0 0) .pyNone).1 0
          (.inst 0 1) .pyNone).1 0 = some ⟨some (.inst 0 1)⟩ :=
  C10_dunder_get_shared_self exampleHeap 0 ⟨none⟩ (.inst 0 0) (.inst 0 1)
    .pyNone .pyNone rfl

end Tastypie
